import Mathlib

/-!
Shallow embedding of pykorad (src/pykorad.py), a serial driver for a Korad
bench power supply.  Bytes are modelled as natural numbers, byte strings as
lists of naturals, and the serial port as a read script (the successive
results of read attempts) together with a log of the writes and a count of
close calls.  Python floats are modelled as exact rationals extended with
infinities and NaN; Python exceptions are modelled with Except.
-/

/-- ASCII command strings are encoded to byte lists, mirroring
str.encode on the pure-ASCII command literals of the source. -/
def asciiBytes (s : String) : List Nat := s.data.map Char.toNat

/-- State of the serial transport: `script` holds the pending read results
(each entry is the chunk returned by one read attempt; an exhausted script
models an idle port whose further reads time out and return zero bytes),
`writes` is the log of written commands, `closeCount` counts close calls. -/
structure SerialPort where
  script : List (List Nat)
  writes : List (List Nat)
  closeCount : Nat
deriving DecidableEq

/-- Read loop of `_execute_command` (`while True: byte = read(); if byte:
extend else break`): append every non-empty chunk, stop at the first empty
read result.  Returns the accumulated data and the remaining script. -/
def drain : List (List Nat) → List Nat × List (List Nat)
  | [] => ([], [])
  | c :: rest =>
    if c.isEmpty then ([], rest)
    else
      let r := drain rest
      (c ++ r.1, r.2)

/-- Source `_perform_bug_workarounds`: if the command is exactly b'ISET1?'
and the accumulated data is exactly 6 bytes long, drop the trailing byte. -/
def _perform_bug_workarounds (command data : List Nat) : List Nat :=
  if command = asciiBytes "ISET1?" ∧ data.length = 6 then data.dropLast else data

/-- Decode-independent part of `_execute_command`: one write of the command
bytes, then the read-drain loop, then the bug workaround.  Returns the
(possibly patched) raw data together with the new port state. -/
def execute_raw (command : List Nat) (p : SerialPort) : List Nat × SerialPort :=
  let r := drain p.script
  (_perform_bug_workarounds command r.1,
   { script := r.2, writes := p.writes ++ [command], closeCount := p.closeCount })

/-- Python float values as produced by the builtin float(): an exact
rational (IEEE rounding is abstracted away; every value the protocol
produces is decimal), a signed infinity, or NaN. -/
inductive PyFloat where
  | finite (q : ℚ)
  | inf (neg : Bool)
  | nan
deriving DecidableEq

/-- ASCII whitespace stripped by float() on bytes input. -/
def isPyWs (b : Nat) : Bool :=
  b = 32 || b = 9 || b = 10 || b = 13 || b = 12 || b = 11

/-- Strip leading and trailing ASCII whitespace. -/
def stripWs (l : List Nat) : List Nat :=
  ((l.dropWhile isPyWs).reverse.dropWhile isPyWs).reverse

/-- ASCII decimal digit test. -/
def isDigitB (b : Nat) : Bool := 48 ≤ b && b ≤ 57

/-- Digit or underscore (underscores are legal digit separators for float()). -/
def isDU (b : Nat) : Bool := isDigitB b || b = 95

/-- Lower-case an ASCII byte. -/
def toLowerB (b : Nat) : Nat := if 65 ≤ b && b ≤ 90 then b + 32 else b

/-- A run of digits and underscores is a valid digitpart when it is
non-empty, starts and ends with a digit, and never has two consecutive
underscores (the grammar of CPython numeric literals). -/
def validDigitpart : List Nat → Bool
  | [] => false
  | [b] => isDigitB b
  | b :: c :: rest =>
    if isDigitB b then
      if c = 95 then validDigitpart rest else validDigitpart (c :: rest)
    else false

/-- Numeric value of a digit run, skipping underscores. -/
def digitsVal (run : List Nat) : Nat :=
  run.foldl (fun acc b => if isDigitB b then acc * 10 + (b - 48) else acc) 0

/-- Parse the optional exponent suffix, returning the signed power of ten it
denotes (0 when absent); the whole remaining input must be consumed. -/
def parseExp (l : List Nat) : Option Int :=
  match l with
  | [] => some 0
  | e :: rest =>
    if toLowerB e = 101 then
      let signRest : Bool × List Nat :=
        match rest with
        | 43 :: r => (false, r)
        | 45 :: r => (true, r)
        | _ => (false, rest)
      let eRun := signRest.2.takeWhile isDU
      let rest2 := signRest.2.dropWhile isDU
      if validDigitpart eRun && rest2.isEmpty then
        let ex : Int := digitsVal eRun
        some (if signRest.1 then -ex else ex)
      else none
    else none

/-- Parse an unsigned floatnumber: digitpart, optional dot and fractional
digitpart (at least one digit overall), optional exponent.  The value is
returned as an integer mantissa together with a signed power of ten. -/
def parseNumber (l : List Nat) : Option (Nat × Int) :=
  let ipRun := l.takeWhile isDU
  let rest1 := l.dropWhile isDU
  match rest1 with
  | 46 :: rest2 =>
    let fpRun := rest2.takeWhile isDU
    let rest3 := rest2.dropWhile isDU
    if (ipRun.isEmpty || validDigitpart ipRun)
        && (fpRun.isEmpty || validDigitpart fpRun)
        && !(ipRun.isEmpty && fpRun.isEmpty) then
      let fd := (fpRun.filter isDigitB).length
      (parseExp rest3).map fun ex =>
        (digitsVal ipRun * 10 ^ fd + digitsVal fpRun, ex - (fd : Int))
    else none
  | _ =>
    if validDigitpart ipRun then (parseExp rest1).map fun ex => (digitsVal ipRun, ex)
    else none

/-- Exact rational value of a signed decimal mantissa times a power of ten. -/
def qOfMantissaExp (neg : Bool) (m : Nat) (p : Int) : ℚ :=
  let sm : Int := if neg then -(m : Int) else (m : Int)
  if 0 ≤ p then mkRat (sm * 10 ^ p.toNat) 1 else mkRat sm (10 ^ (-p).toNat)

/-- Semantics of the CPython builtin float() applied to a bytes object:
strip ASCII whitespace, take an optional sign, then either a
case-insensitive infinity or NaN literal or a decimal floatnumber with
optional exponent.  Returns none exactly when float() raises ValueError. -/
def pyFloatParse (l : List Nat) : Option PyFloat :=
  let s := stripWs l
  let signBody : Bool × List Nat :=
    match s with
    | 43 :: rest => (false, rest)
    | 45 :: rest => (true, rest)
    | _ => (false, s)
  let lb := signBody.2.map toLowerB
  if lb = asciiBytes "inf" ∨ lb = asciiBytes "infinity" then
    some (.inf signBody.1)
  else if lb = asciiBytes "nan" then some .nan
  else
    match parseNumber signBody.2 with
    | some mp => some (.finite (qOfMantissaExp signBody.1 mp.1 mp.2))
    | none => none

/-- Continuation byte test for UTF-8. -/
def isCont (b : Nat) : Bool := 128 ≤ b && b ≤ 191

/-- Strict UTF-8 decoding as performed by bytes.decode, returning the list
of decoded code points, or none when decoding raises UnicodeDecodeError
(invalid lead or continuation bytes, overlong forms, surrogates, values
above U+10FFFF). -/
def decodeUtf8 : List Nat → Option (List Nat)
  | [] => some []
  | b :: rest =>
    if b ≤ 127 then (decodeUtf8 rest).map (b :: ·)
    else if b ≤ 193 then none
    else if b ≤ 223 then
      match rest with
      | c1 :: rest2 =>
        if isCont c1 then
          (decodeUtf8 rest2).map (((b - 192) * 64 + (c1 - 128)) :: ·)
        else none
      | [] => none
    else if b ≤ 239 then
      match rest with
      | c1 :: c2 :: rest3 =>
        if isCont c1 && isCont c2 then
          let cp := (b - 224) * 4096 + (c1 - 128) * 64 + (c2 - 128)
          if 2048 ≤ cp && (cp < 55296 || 57343 < cp) then
            (decodeUtf8 rest3).map (cp :: ·)
          else none
        else none
      | _ => none
    else if b ≤ 244 then
      match rest with
      | c1 :: c2 :: c3 :: rest4 =>
        if isCont c1 && isCont c2 && isCont c3 then
          let cp := (b - 240) * 262144 + (c1 - 128) * 4096
                      + (c2 - 128) * 64 + (c3 - 128)
          if 65536 ≤ cp && cp ≤ 1114111 then
            (decodeUtf8 rest4).map (cp :: ·)
          else none
        else none
      | _ => none
    else none

/-- Python exceptions that the driver can raise. -/
inductive PyError where
  | unicodeDecodeError
  | assertionError
  | indexError
deriving DecidableEq

/-- Python values returned by the driver's methods: None (setters), a float
or a str (decoded responses, str as a list of code points), a bool (status
queries) or a bytes object (raw responses). -/
inductive PyObject where
  | none
  | float (f : PyFloat)
  | str (cps : List Nat)
  | bool (b : Bool)
  | bytes (d : List Nat)
deriving DecidableEq

instance {ε α : Type} [DecidableEq ε] [DecidableEq α] : DecidableEq (Except ε α) :=
  fun a b =>
    match a, b with
    | .ok x, .ok y =>
      if h : x = y then .isTrue (by rw [h]) else .isFalse (fun he => h (by cases he; rfl))
    | .error x, .error y =>
      if h : x = y then .isTrue (by rw [h]) else .isFalse (fun he => h (by cases he; rfl))
    | .ok _, .error _ => .isFalse (fun he => by cases he)
    | .error _, .ok _ => .isFalse (fun he => by cases he)

/-- Source `_decode_response`: try float(response); on ValueError fall back
to response.decode of utf-8, whose own failure propagates. -/
def _decode_response (response : List Nat) : Except PyError PyObject :=
  match pyFloatParse response with
  | some f => .ok (.float f)
  | none =>
    match decodeUtf8 response with
    | some s => .ok (.str s)
    | none => .error .unicodeDecodeError

/-- Source `_execute_command`: write the command, drain the reads, apply the
bug workaround, then either decode the data or return it raw. -/
def _execute_command (command : List Nat) (dec : Bool) (p : SerialPort) :
    Except PyError PyObject × SerialPort :=
  let r := execute_raw command p
  if dec then
    match _decode_response r.1 with
    | .ok v => (.ok v, r.2)
    | .error e => (.error e, r.2)
  else (.ok (.bytes r.1), r.2)

/-- Status byte masks, fixed protocol constants of the source module. -/
def OUTPUT_ENABLED_MASK : Nat := 0x40

def OVER_CURRENT_PROTECTION_ENABLED_MASK : Nat := 0x20

def OVER_VOLTAGE_PROTECTION_ENABLED_MASK : Nat := 0x80

def CC_CV_MASK : Nat := 0x01

/-- Command bytes of the status query. -/
def statusCmd : List Nat := asciiBytes "STATUS?"

/-- Source `is_output_enabled`: issue STATUS? once with decode disabled and
index the raw data at 0, which raises IndexError on an empty response; no
retry and no default. -/
def is_output_enabled (p : SerialPort) : Except PyError PyObject × SerialPort :=
  let r := execute_raw statusCmd p
  match r.1 with
  | [] => (.error .indexError, r.2)
  | b :: _ => (.ok (.bool ((b &&& OUTPUT_ENABLED_MASK) != 0)), r.2)

/-- Retry loop of `_is_protection_enabled`, indexed by the remaining number
of attempts: issue STATUS? with decode disabled; if the raw data is exactly
one byte return the masked bit, otherwise retry; after the attempts are
exhausted return false. -/
def protectionLoop (mask : Nat) : Nat → SerialPort → Bool × SerialPort
  | 0, p => (false, p)
  | n + 1, p =>
    let r := execute_raw statusCmd p
    match r.1 with
    | [b] => ((b &&& mask) != 0, r.2)
    | _ => protectionLoop mask n r.2

/-- Source `_is_protection_enabled`: the retry loop with counter bound 3. -/
def _is_protection_enabled (mask : Nat) (p : SerialPort) : Bool × SerialPort :=
  protectionLoop mask 3 p

/-- Source `is_over_voltage_protection_enabled`. -/
def is_over_voltage_protection_enabled (p : SerialPort) : Bool × SerialPort :=
  _is_protection_enabled OVER_VOLTAGE_PROTECTION_ENABLED_MASK p

/-- Source `is_over_current_protection_enabled`. -/
def is_over_current_protection_enabled (p : SerialPort) : Bool × SerialPort :=
  _is_protection_enabled OVER_CURRENT_PROTECTION_ENABLED_MASK p

/-- Decimal digits of a natural number (fuel-based, fuel n suffices). -/
def natToDecAux : Nat → Nat → List Nat
  | 0, _ => []
  | fuel + 1, n => if n = 0 then [] else natToDecAux fuel (n / 10) ++ [48 + n % 10]

/-- Decimal ASCII rendering of a natural number. -/
def natToDec (n : Nat) : List Nat := if n = 0 then [48] else natToDecAux n n

/-- Decimal ASCII rendering of an integer, with a leading minus sign when
negative (the str() rendering of a Python int). -/
def intToDec (i : Int) : List Nat := (if i < 0 then [45] else []) ++ natToDec i.natAbs

/-- Least k below the fuel bound with den dividing 10 to the k. -/
def findDecExpAux (den : Nat) : Nat → Nat → Option Nat
  | _, 0 => Option.none
  | k, fuel + 1 => if 10 ^ k % den = 0 then some k else findDecExpAux den (k + 1) fuel

/-- Least exponent k such that den divides 10 to the k; every IEEE double
has a dyadic denominator, for which such a k exists well below the bound. -/
def findDecExp (den : Nat) : Option Nat := findDecExpAux den 0 1200

/-- Rendering of a Python float by str.format, modelled for values with a
finite decimal expansion (every IEEE double has one): minimal decimal
digits with at least one fractional digit, matching the shortest
round-trip repr of values that originate from decimal literals.  The
scientific-notation rendering Python uses for very small or very large
magnitudes is not modelled; no command in the driver's accepted argument
ranges is affected by the digits of the rendering. -/
def pyFormatFloat (q : ℚ) : List Nat :=
  let sign : List Nat := if q < 0 then [45] else []
  let a := q.num.natAbs
  match findDecExp q.den with
  | some k =>
    let k1 := max k 1
    let scaled := a * (10 ^ k1 / q.den)
    let ip := scaled / 10 ^ k1
    let fp := scaled % 10 ^ k1
    let fpd := natToDec fp
    sign ++ natToDec ip ++ [46] ++ List.replicate (k1 - fpd.length) 48 ++ fpd
  | Option.none => sign ++ natToDec a ++ [47] ++ natToDec q.den

/-- Source `set_output_voltage`: assert the documented range before any
transport traffic, then format VSET1 with the value and execute, discarding
the decoded result (the Python method returns None). -/
def set_output_voltage (voltage : ℚ) (p : SerialPort) :
    Except PyError PyObject × SerialPort :=
  if voltage < 0 then (.error .assertionError, p)
  else if 30 < voltage then (.error .assertionError, p)
  else
    let r := _execute_command (asciiBytes "VSET1:" ++ pyFormatFloat voltage) true p
    (r.1.map fun _ => PyObject.none, r.2)

/-- Source `get_requested_output_voltage`. -/
def get_requested_output_voltage (p : SerialPort) :
    Except PyError PyObject × SerialPort :=
  _execute_command (asciiBytes "VSET1?") true p

/-- Source `get_output_voltage`. -/
def get_output_voltage (p : SerialPort) : Except PyError PyObject × SerialPort :=
  _execute_command (asciiBytes "VOUT1?") true p

/-- Source `set_output_current`: assert the documented range, format ISET1
with the value, execute, return None. -/
def set_output_current (current : ℚ) (p : SerialPort) :
    Except PyError PyObject × SerialPort :=
  if current < 0 then (.error .assertionError, p)
  else if 5 < current then (.error .assertionError, p)
  else
    let r := _execute_command (asciiBytes "ISET1:" ++ pyFormatFloat current) true p
    (r.1.map fun _ => PyObject.none, r.2)

/-- Source `get_output_current`. -/
def get_output_current (p : SerialPort) : Except PyError PyObject × SerialPort :=
  _execute_command (asciiBytes "IOUT1?") true p

/-- Source `get_requested_output_current`. -/
def get_requested_output_current (p : SerialPort) :
    Except PyError PyObject × SerialPort :=
  _execute_command (asciiBytes "ISET1?") true p

/-- Source `recall_from_memory`: assert the slot range 1 to 5, format RCL
with the index, execute, return None. -/
def recall_from_memory (index : Int) (p : SerialPort) :
    Except PyError PyObject × SerialPort :=
  if index < 1 then (.error .assertionError, p)
  else if 5 < index then (.error .assertionError, p)
  else
    let r := _execute_command (asciiBytes "RCL" ++ intToDec index) true p
    (r.1.map fun _ => PyObject.none, r.2)

/-- Source `save_to_memory`: assert the slot range 1 to 5, format SAV with
the index, execute, return None. -/
def save_to_memory (index : Int) (p : SerialPort) :
    Except PyError PyObject × SerialPort :=
  if index < 1 then (.error .assertionError, p)
  else if 5 < index then (.error .assertionError, p)
  else
    let r := _execute_command (asciiBytes "SAV" ++ intToDec index) true p
    (r.1.map fun _ => PyObject.none, r.2)

/-- Source `enable_output`. -/
def enable_output (enable : Bool) (p : SerialPort) :
    Except PyError PyObject × SerialPort :=
  let r := _execute_command
    (if enable then asciiBytes "OUT1" else asciiBytes "OUT0") true p
  (r.1.map fun _ => PyObject.none, r.2)

/-- Source `enable_over_voltage_protection`. -/
def enable_over_voltage_protection (enable : Bool) (p : SerialPort) :
    Except PyError PyObject × SerialPort :=
  let r := _execute_command
    (if enable then asciiBytes "OVP1" else asciiBytes "OVP0") true p
  (r.1.map fun _ => PyObject.none, r.2)

/-- Source `enable_over_current_protection`. -/
def enable_over_current_protection (enable : Bool) (p : SerialPort) :
    Except PyError PyObject × SerialPort :=
  let r := _execute_command
    (if enable then asciiBytes "OCP1" else asciiBytes "OCP0") true p
  (r.1.map fun _ => PyObject.none, r.2)

/-- Command bytes of the identification query. -/
def idnCmd : List Nat := asciiBytes "*IDN?"

/-- Source `_get_id`. -/
def _get_id (p : SerialPort) : Except PyError PyObject × SerialPort :=
  _execute_command idnCmd true p

/-- The connection object: its only field is the identification value
cached by the constructor; no method of the source ever assigns it again. -/
structure PowerSupply where
  _id : PyObject
deriving DecidableEq

/-- Constructor body after the transport has been opened: perform the one
identification transaction and cache its value; a decode failure
propagates out of the constructor (the source has no handler there). -/
def powerSupplyInit (p : SerialPort) : Except PyError PowerSupply × SerialPort :=
  let r := _get_id p
  match r.1 with
  | .ok v => (.ok ⟨v⟩, r.2)
  | .error e => (.error e, r.2)

/-- Source `get_identification`: return the cached field, touching no
transport state at all. -/
def get_identification (psu : PowerSupply) : PyObject := psu._id

/-- Model of serial close: count the call. -/
def closePort (p : SerialPort) : SerialPort :=
  { p with closeCount := p.closeCount + 1 }

/-- Lifetime of a connection used in a with statement: construct (which
performs the identity fetch), run the body on success, and run the context
exit, which closes the transport, whether or not the body failed.  When the
constructor itself raises, the with statement never obtains a context
manager, so no exit runs and nothing closes the port. -/
def withPowerSupply (p : SerialPort)
    (body : PowerSupply → SerialPort → Except PyError PyObject × SerialPort) :
    Except PyError PyObject × SerialPort :=
  let r := powerSupplyInit p
  match r.1 with
  | .ok psu =>
    let rb := body psu r.2
    (rb.1, closePort rb.2)
  | .error e => (.error e, r.2)

/-- The public operations of a constructed PowerSupply object. -/
inductive Op where
  | setOutputVoltage (v : ℚ)
  | getRequestedOutputVoltage
  | getOutputVoltage
  | setOutputCurrent (v : ℚ)
  | getOutputCurrent
  | getRequestedOutputCurrent
  | recallFromMemory (i : Int)
  | saveToMemory (i : Int)
  | enableOutput (b : Bool)
  | enableOverVoltageProtection (b : Bool)
  | enableOverCurrentProtection (b : Bool)
  | getIdentification
  | isOutputEnabled
  | isOverVoltageProtectionEnabled
  | isOverCurrentProtectionEnabled

/-- One method call on a constructed object: every method reads but never
reassigns the cached identification field, mirroring the absence of any
assignment to it outside the constructor in the source. -/
def runOp (op : Op) (psu : PowerSupply) (p : SerialPort) :
    Except PyError PyObject × PowerSupply × SerialPort :=
  match op with
  | .setOutputVoltage v => let r := set_output_voltage v p; (r.1, psu, r.2)
  | .getRequestedOutputVoltage =>
    let r := get_requested_output_voltage p; (r.1, psu, r.2)
  | .getOutputVoltage => let r := get_output_voltage p; (r.1, psu, r.2)
  | .setOutputCurrent v => let r := set_output_current v p; (r.1, psu, r.2)
  | .getOutputCurrent => let r := get_output_current p; (r.1, psu, r.2)
  | .getRequestedOutputCurrent =>
    let r := get_requested_output_current p; (r.1, psu, r.2)
  | .recallFromMemory i => let r := recall_from_memory i p; (r.1, psu, r.2)
  | .saveToMemory i => let r := save_to_memory i p; (r.1, psu, r.2)
  | .enableOutput b => let r := enable_output b p; (r.1, psu, r.2)
  | .enableOverVoltageProtection b =>
    let r := enable_over_voltage_protection b p; (r.1, psu, r.2)
  | .enableOverCurrentProtection b =>
    let r := enable_over_current_protection b p; (r.1, psu, r.2)
  | .getIdentification => (.ok (get_identification psu), psu, p)
  | .isOutputEnabled => let r := is_output_enabled p; (r.1, psu, r.2)
  | .isOverVoltageProtectionEnabled =>
    let r := is_over_voltage_protection_enabled p; (.ok (.bool r.1), psu, r.2)
  | .isOverCurrentProtectionEnabled =>
    let r := is_over_current_protection_enabled p; (.ok (.bool r.1), psu, r.2)

/-- The accumulated read buffer is the concatenation of the chunks strictly
before the first empty chunk, and exactly those reads plus the terminating
empty read are consumed. -/
theorem drain_spec (s : List (List Nat)) :
    drain s = ((s.takeWhile fun c => !c.isEmpty).flatten,
               (s.dropWhile fun c => !c.isEmpty).drop 1) := by
  induction s with
  | nil => rfl
  | cons c rest ih =>
    by_cases hc : c.isEmpty
    · simp [drain, hc]
    · simp [drain, hc, ih]

/-- Port state after one _execute_command call does not depend on the
decode flag or the decode outcome. -/
theorem execute_command_port (c : List Nat) (d : Bool) (p : SerialPort) :
    (_execute_command c d p).2 = (execute_raw c p).2 := by
  unfold _execute_command
  cases d
  · rfl
  · cases h : _decode_response (execute_raw c p).1 <;> simp [h]

/-- C1: one call of `_execute_command` performs exactly one write of the
command bytes; the read loop consumes exactly the chunks up to and
including the first empty one, and the accumulated buffer is the
concatenation of the non-empty chunks before the first empty chunk. -/
theorem execute_command_transaction (command : List Nat) (dec : Bool) (p : SerialPort) :
    (_execute_command command dec p).2.writes = p.writes ++ [command]
    ∧ (_execute_command command dec p).2.script
        = (p.script.dropWhile fun c => !c.isEmpty).drop 1
    ∧ (drain p.script).1 = (p.script.takeWhile fun c => !c.isEmpty).flatten := by
  refine ⟨?_, ?_, ?_⟩
  · rw [execute_command_port]; rfl
  · rw [execute_command_port]
    show (drain p.script).2 = _
    rw [drain_spec]
  · rw [drain_spec]

/-- C3: the decoder returns the parsed number whenever float parsing
succeeds, falls back to the UTF-8 decoded string when the bytes are not
numeric but are valid UTF-8, and raises a decode error that
`_execute_command` propagates when they are neither; b'12.50' decodes to
12.5 and b'KORAD KA3005P' to that very string. -/
theorem decode_response_classification :
    (∀ r f, pyFloatParse r = some f → _decode_response r = .ok (.float f))
    ∧ (∀ r s, pyFloatParse r = Option.none → decodeUtf8 r = some s →
        _decode_response r = .ok (.str s))
    ∧ (∀ r, pyFloatParse r = Option.none → decodeUtf8 r = Option.none →
        _decode_response r = .error .unicodeDecodeError)
    ∧ (∀ command p, _decode_response (execute_raw command p).1
          = .error .unicodeDecodeError →
        (_execute_command command true p).1 = .error .unicodeDecodeError)
    ∧ _decode_response (asciiBytes "12.50") = .ok (.float (.finite (mkRat 25 2)))
    ∧ _decode_response (asciiBytes "KORAD KA3005P")
        = .ok (.str (asciiBytes "KORAD KA3005P")) := by
  refine ⟨?_, ?_, ?_, ?_, by decide, by decide⟩
  · intro r f h; simp [_decode_response, h]
  · intro r s h1 h2; simp [_decode_response, h1, h2]
  · intro r h1 h2; simp [_decode_response, h1, h2]
  · intro command p h; simp [_execute_command, h]

/-- Witness for the hypotheses of the decoder classification theorem at
concrete inputs: the invalid byte 0xFF raises, and a non-numeric ASCII
reply falls back to the string. -/
theorem decode_response_classification_witness :
    _decode_response [255] = .error .unicodeDecodeError
    ∧ _decode_response (asciiBytes "OVP1") = .ok (.str (asciiBytes "OVP1")) :=
  ⟨decode_response_classification.2.2.1 [255] (by decide) (by decide),
   decode_response_classification.2.1 (asciiBytes "OVP1") (asciiBytes "OVP1")
     (by decide) (by decide)⟩

/-- C10: float classification is strictly broader than plain decimal ASCII:
surrounding ASCII whitespace (such as a trailing newline), an explicit
sign, exponent notation and the inf and nan literals are all accepted, the
parsed number is returned, and the whitespace bytes are discarded. -/
theorem decode_float_breadth :
    (∀ r f, pyFloatParse r = some f → _decode_response r = .ok (.float f))
    ∧ _decode_response (asciiBytes "12.5\n") = .ok (.float (.finite (mkRat 25 2)))
    ∧ _decode_response (asciiBytes "+3") = .ok (.float (.finite (mkRat 3 1)))
    ∧ _decode_response (asciiBytes "-2.5") = .ok (.float (.finite (mkRat (-5) 2)))
    ∧ _decode_response (asciiBytes "1e3") = .ok (.float (.finite (mkRat 1000 1)))
    ∧ _decode_response (asciiBytes "inf") = .ok (.float (.inf false))
    ∧ _decode_response (asciiBytes "NaN") = .ok (.float .nan)
    ∧ pyFloatParse (asciiBytes "KORAD KA3005P") = Option.none := by
  refine ⟨?_, by decide, by decide, by decide, by decide, by decide, by decide, by decide⟩
  intro r f h; simp [_decode_response, h]

/-- Witness for the universally quantified part of the breadth theorem at a
concrete input. -/
theorem decode_float_breadth_witness :
    _decode_response (asciiBytes "30.0") = .ok (.float (.finite (mkRat 30 1))) :=
  decode_float_breadth.1 (asciiBytes "30.0") (.finite (mkRat 30 1)) (by decide)

/-- C2: the bug workaround returns the first 5 bytes exactly when the
command is b'ISET1?' and the data has length 6, and the data unchanged in
every other case. -/
theorem bug_workaround_spec (c d : List Nat) :
    _perform_bug_workarounds c d =
      if c = asciiBytes "ISET1?" ∧ d.length = 6 then d.take 5 else d := by
  unfold _perform_bug_workarounds
  by_cases h : c = asciiBytes "ISET1?" ∧ d.length = 6
  · simp only [h, if_pos, List.dropLast_eq_take, h.2]
  · simp [h]

/-- The STATUS? command is not ISET1?, so the bug workaround never alters a
status response. -/
theorem status_no_workaround (d : List Nat) :
    _perform_bug_workarounds statusCmd d = d := by
  unfold _perform_bug_workarounds
  rw [if_neg]
  intro h
  exact absurd h.1 (by decide)

/-- Raw execution of the status query in terms of the drain of the script. -/
theorem execute_raw_status (p : SerialPort) :
    execute_raw statusCmd p
      = ((drain p.script).1,
         ⟨(drain p.script).2, p.writes ++ [statusCmd], p.closeCount⟩) := by
  simp only [execute_raw, status_no_workaround]

/-- Unfolding of one attempt of the protection query loop. -/
theorem protectionLoop_step (mask n : Nat) (p : SerialPort) :
    protectionLoop mask (n + 1) p
      = (match (drain p.script).1 with
         | [b] => (((b &&& mask) != 0),
                   ⟨(drain p.script).2, p.writes ++ [statusCmd], p.closeCount⟩)
         | _ => protectionLoop mask n
                  ⟨(drain p.script).2, p.writes ++ [statusCmd], p.closeCount⟩) := by
  have e := execute_raw_status p
  show (let r := execute_raw statusCmd p;
    match r.1 with
    | [b] => (((b &&& mask) != 0), r.2)
    | _ => protectionLoop mask n r.2) = _
  rw [e]

/-- A one-byte status response answers a protection query immediately. -/
theorem protectionLoop_one_byte (mask n : Nat) (p : SerialPort) (b : Nat)
    (rest : List (List Nat)) (h : drain p.script = ([b], rest)) :
    protectionLoop mask (n + 1) p
      = (((b &&& mask) != 0), ⟨rest, p.writes ++ [statusCmd], p.closeCount⟩) := by
  rw [protectionLoop_step, h]

/-- A status response that is not one byte long makes the protection query
retry on the remaining script. -/
theorem protectionLoop_malformed (mask n : Nat) (p : SerialPort)
    (h : (drain p.script).1.length ≠ 1) :
    protectionLoop mask (n + 1) p
      = protectionLoop mask n
          ⟨(drain p.script).2, p.writes ++ [statusCmd], p.closeCount⟩ := by
  rw [protectionLoop_step]
  rcases hd : (drain p.script).1 with _ | ⟨b, _ | ⟨c, t⟩⟩
  · rfl
  · exact absurd (by rw [hd]; rfl) h
  · rfl

/-- The protection query loop performs at most as many status writes as it
has attempts left, and nothing else. -/
theorem protectionLoop_writes (mask : Nat) : ∀ n p, ∃ k, k ≤ n ∧
    (protectionLoop mask n p).2.writes = p.writes ++ List.replicate k statusCmd := by
  intro n
  induction n with
  | zero => exact fun p => ⟨0, Nat.le_refl 0, by simp [protectionLoop]⟩
  | succ n ih =>
    intro p
    by_cases hl : (drain p.script).1.length = 1
    · obtain ⟨b, hb⟩ := List.length_eq_one.1 hl
      have hp : drain p.script = ([b], (drain p.script).2) := by rw [← hb]
      rw [protectionLoop_one_byte mask n p b (drain p.script).2 hp]
      exact ⟨1, by omega, by simp⟩
    · rw [protectionLoop_malformed mask n p hl]
      obtain ⟨k, hk, hw⟩ :=
        ih ⟨(drain p.script).2, p.writes ++ [statusCmd], p.closeCount⟩
      exact ⟨k + 1, by omega, by rw [hw]; simp [List.replicate_succ]⟩

/-- C4: a protection query returns at the first attempt whose response is
exactly one byte with the masked bit of that byte, whether that attempt is
the first, the second or the third, issuing exactly that many status
writes; three successive malformed responses make it return false with no
fault after exactly three status writes; in every case at most three
status writes occur; the mask 0x80 maps byte 0x80 to true and byte 0x00 to
false, also when a malformed response precedes the one-byte one. -/
theorem protection_enabled_retry :
    (∀ mask p b rest, drain p.script = ([b], rest) →
      _is_protection_enabled mask p
        = (((b &&& mask) != 0), ⟨rest, p.writes ++ [statusCmd], p.closeCount⟩))
    ∧ (∀ mask p b rest, (drain p.script).1.length ≠ 1 →
        drain (drain p.script).2 = ([b], rest) →
        _is_protection_enabled mask p
          = (((b &&& mask) != 0),
             ⟨rest, p.writes ++ [statusCmd, statusCmd], p.closeCount⟩))
    ∧ (∀ mask p b rest, (drain p.script).1.length ≠ 1 →
        (drain (drain p.script).2).1.length ≠ 1 →
        drain (drain (drain p.script).2).2 = ([b], rest) →
        _is_protection_enabled mask p
          = (((b &&& mask) != 0),
             ⟨rest, p.writes ++ [statusCmd, statusCmd, statusCmd], p.closeCount⟩))
    ∧ (∀ mask p, (drain p.script).1.length ≠ 1 →
        (drain (drain p.script).2).1.length ≠ 1 →
        (drain (drain (drain p.script).2).2).1.length ≠ 1 →
        _is_protection_enabled mask p
          = (false, ⟨(drain (drain (drain p.script).2).2).2,
                     p.writes ++ [statusCmd, statusCmd, statusCmd], p.closeCount⟩))
    ∧ (∀ mask p, ∃ k, k ≤ 3 ∧ (_is_protection_enabled mask p).2.writes
        = p.writes ++ List.replicate k statusCmd)
    ∧ is_over_voltage_protection_enabled ⟨[[128]], [], 0⟩
        = (true, ⟨[], [statusCmd], 0⟩)
    ∧ is_over_voltage_protection_enabled ⟨[[0]], [], 0⟩
        = (false, ⟨[], [statusCmd], 0⟩)
    ∧ is_over_current_protection_enabled ⟨[[32]], [], 0⟩
        = (true, ⟨[], [statusCmd], 0⟩)
    ∧ is_over_voltage_protection_enabled ⟨[[5, 6], [], [128]], [], 0⟩
        = (true, ⟨[], [statusCmd, statusCmd], 0⟩) := by
  refine ⟨?_, ?_, ?_, ?_, ?_, by decide, by decide, by decide, by decide⟩
  · intro mask p b rest h
    exact protectionLoop_one_byte mask 2 p b rest h
  · intro mask p b rest h1 h2
    show protectionLoop mask 3 p = _
    rw [protectionLoop_malformed mask 2 p h1,
        protectionLoop_one_byte mask 1 _ b rest h2]
    simp
  · intro mask p b rest h1 h2 h3
    show protectionLoop mask 3 p = _
    rw [protectionLoop_malformed mask 2 p h1,
        protectionLoop_malformed mask 1 _ h2,
        protectionLoop_one_byte mask 0 _ b rest h3]
    simp
  · intro mask p h1 h2 h3
    show protectionLoop mask 3 p = _
    rw [protectionLoop_malformed mask 2 p h1,
        protectionLoop_malformed mask 1 _ h2,
        protectionLoop_malformed mask 0 _ h3]
    simp [protectionLoop]
  · intro mask p
    exact protectionLoop_writes mask 3 p

/-- Witness for the protection query theorem at concrete ports: a single
0x80 byte answers true at once, a malformed response followed by a
one-byte response answers at the second attempt, a one-byte response only
at the third attempt answers there, and three malformed responses end in
the false default. -/
theorem protection_enabled_retry_witness :
    _is_protection_enabled 128 ⟨[[128]], [], 0⟩ = (true, ⟨[], [statusCmd], 0⟩)
    ∧ _is_protection_enabled 128 ⟨[[9, 9], [], [0]], [], 0⟩
        = (false, ⟨[], [statusCmd, statusCmd], 0⟩)
    ∧ _is_protection_enabled 32 ⟨[[9, 9], [], [], [32]], [], 0⟩
        = (true, ⟨[], [statusCmd, statusCmd, statusCmd], 0⟩)
    ∧ _is_protection_enabled 32 ⟨[[240], [7], [9]], [], 0⟩
        = (false, ⟨[], [statusCmd, statusCmd, statusCmd], 0⟩) := by
  refine ⟨?_, ?_, ?_, ?_⟩
  · have h := protection_enabled_retry.1 128 ⟨[[128]], [], 0⟩ 128 [] (by decide)
    rw [h]; decide
  · have h := protection_enabled_retry.2.1 128 ⟨[[9, 9], [], [0]], [], 0⟩ 0 []
      (by decide) (by decide)
    rw [h]; decide
  · have h := protection_enabled_retry.2.2.1 32 ⟨[[9, 9], [], [], [32]], [], 0⟩ 32 []
      (by decide) (by decide) (by decide)
    rw [h]; decide
  · have h := protection_enabled_retry.2.2.2.1 32 ⟨[[240], [7], [9]], [], 0⟩
      (by decide) (by decide) (by decide)
    rw [h]; decide

/-- Evaluation of the output-enabled query in terms of the drain of the
script. -/
theorem is_output_enabled_eq (p : SerialPort) :
    is_output_enabled p
      = (match (drain p.script).1 with
         | [] => (.error .indexError,
                  ⟨(drain p.script).2, p.writes ++ [statusCmd], p.closeCount⟩)
         | b :: _ => (.ok (.bool ((b &&& OUTPUT_ENABLED_MASK) != 0)),
                      ⟨(drain p.script).2, p.writes ++ [statusCmd], p.closeCount⟩)) := by
  have e := execute_raw_status p
  show (let r := execute_raw statusCmd p;
    match r.1 with
    | [] => (Except.error PyError.indexError, r.2)
    | b :: _ => (Except.ok (PyObject.bool ((b &&& OUTPUT_ENABLED_MASK) != 0)), r.2)) = _
  rw [e]

/-- Counterexample to C5 as stated: a two-byte status response is malformed,
yet the output-enabled query raises nothing and returns false, because
indexing at 0 only fails on an empty sequence. -/
theorem output_enabled_malformed_cex :
    (execute_raw statusCmd ⟨[[0], [0]], [], 0⟩).1.length = 2
    ∧ is_output_enabled ⟨[[0], [0]], [], 0⟩
        = (.ok (.bool false), ⟨[], [statusCmd], 0⟩) := by decide

/-- C5 amended: the output-enabled query issues exactly one status write and
never retries; it raises only on the empty response, where indexing fails;
every non-empty response, well-formed or not, is trusted and its first byte
is masked with 0x40. -/
theorem output_enabled_spec :
    (∀ p, (is_output_enabled p).2.writes = p.writes ++ [statusCmd])
    ∧ (∀ p, (execute_raw statusCmd p).1 = [] →
        (is_output_enabled p).1 = .error .indexError)
    ∧ (∀ p b t, (execute_raw statusCmd p).1 = b :: t →
        (is_output_enabled p).1 = .ok (.bool ((b &&& OUTPUT_ENABLED_MASK) != 0)))
    ∧ is_output_enabled ⟨[[64]], [], 0⟩ = (.ok (.bool true), ⟨[], [statusCmd], 0⟩)
    ∧ is_output_enabled ⟨[], [], 0⟩
        = (.error .indexError, ⟨[], [statusCmd], 0⟩) := by
  refine ⟨?_, ?_, ?_, by decide, by decide⟩
  · intro p
    rw [is_output_enabled_eq]
    rcases hd : (drain p.script).1 with _ | ⟨b, t⟩ <;> rfl
  · intro p h
    rw [execute_raw_status] at h
    rw [is_output_enabled_eq, h]
  · intro p b t h
    rw [execute_raw_status] at h
    rw [is_output_enabled_eq, h]

/-- Witness for the output-enabled theorem at concrete ports. -/
theorem output_enabled_spec_witness :
    (is_output_enabled ⟨[[2], [2]], [], 0⟩).1 = .ok (.bool ((2 &&& OUTPUT_ENABLED_MASK) != 0))
    ∧ (is_output_enabled ⟨[[]], [], 0⟩).1 = .error .indexError :=
  ⟨output_enabled_spec.2.2.1 ⟨[[2], [2]], [], 0⟩ 2 [2] (by decide),
   output_enabled_spec.2.1 ⟨[[]], [], 0⟩ (by decide)⟩

/-- C6: the voltage setter fails the assertion, before any transport write,
exactly on values outside 0.0 to 30.0; minus 0.1 and 30.1 are rejected with
the port untouched, while the boundary values 0.0 and 30.0 pass validation
and the formatted command is written. -/
theorem set_output_voltage_range :
    (∀ v p, v < 0 ∨ 30 < v → set_output_voltage v p = (.error .assertionError, p))
    ∧ (∀ (v : ℚ) p, 0 ≤ v → v ≤ 30 →
        (set_output_voltage v p).2.writes
          = p.writes ++ [asciiBytes "VSET1:" ++ pyFormatFloat v])
    ∧ set_output_voltage (mkRat (-1) 10) ⟨[], [], 0⟩
        = (.error .assertionError, ⟨[], [], 0⟩)
    ∧ set_output_voltage (mkRat 301 10) ⟨[], [], 0⟩
        = (.error .assertionError, ⟨[], [], 0⟩)
    ∧ (set_output_voltage 0 ⟨[], [], 0⟩).2.writes = [asciiBytes "VSET1:0.0"]
    ∧ (set_output_voltage 30 ⟨[], [], 0⟩).2.writes = [asciiBytes "VSET1:30.0"] := by
  refine ⟨?_, ?_, by decide, by decide, by decide, by decide⟩
  · intro v p h
    rcases h with h | h
    · unfold set_output_voltage
      rw [if_pos h]
    · have h0 : ¬ v < 0 := not_lt.2 (le_trans (by norm_num) h.le)
      unfold set_output_voltage
      rw [if_neg h0, if_pos h]
  · intro v p h0 h30
    unfold set_output_voltage
    rw [if_neg (not_lt.2 h0), if_neg (not_lt.2 h30)]
    show (_execute_command (asciiBytes "VSET1:" ++ pyFormatFloat v) true p).2.writes = _
    rw [execute_command_port]
    rfl

/-- Witness for the voltage range theorem: 31 V is rejected with the port
untouched and 12.5 V is formatted and written. -/
theorem set_output_voltage_range_witness :
    set_output_voltage 31 ⟨[], [], 0⟩ = (.error .assertionError, ⟨[], [], 0⟩)
    ∧ (set_output_voltage (mkRat 25 2) ⟨[], [], 0⟩).2.writes
        = [asciiBytes "VSET1:12.5"] := by
  constructor
  · exact set_output_voltage_range.1 31 ⟨[], [], 0⟩ (Or.inr (by decide))
  · have h := set_output_voltage_range.2.1 (mkRat 25 2) ⟨[], [], 0⟩
      (by decide) (by decide)
    rw [h]; decide

/-- Port state of the constructor does not depend on the decode outcome of
the identification transaction. -/
theorem powerSupplyInit_port (p : SerialPort) :
    (powerSupplyInit p).2 = (_execute_command idnCmd true p).2 := by
  unfold powerSupplyInit _get_id
  cases h : (_execute_command idnCmd true p).1 <;> simp [h]

/-- C7: construction performs exactly one identification write and stores
the decoded value in the cached field; no operation ever changes that
field; getting the identification returns the cached value and neither
reads from nor writes to the transport. -/
theorem identity_cached :
    (∀ p, (powerSupplyInit p).2.writes = p.writes ++ [idnCmd])
    ∧ (∀ p v p2, _get_id p = (.ok v, p2) → powerSupplyInit p = (.ok ⟨v⟩, p2))
    ∧ (∀ op psu p, (runOp op psu p).2.1 = psu)
    ∧ (∀ psu p, runOp .getIdentification psu p
        = (.ok (get_identification psu), psu, p)) := by
  refine ⟨?_, ?_, ?_, ?_⟩
  · intro p
    rw [powerSupplyInit_port, execute_command_port]
    rfl
  · intro p v p2 h
    simp [powerSupplyInit, h]
  · intro op psu p
    cases op <;> rfl
  · intro psu p
    rfl

/-- Witness for the identity caching theorem: a one-byte ASCII reply is
cached as the identification string, and a later operation leaves it
untouched. -/
theorem identity_cached_witness :
    powerSupplyInit ⟨[[75]], [], 0⟩ = (.ok ⟨.str [75]⟩, ⟨[], [idnCmd], 0⟩)
    ∧ (runOp .getOutputVoltage ⟨.str [75]⟩ ⟨[], [], 0⟩).2.1 = ⟨.str [75]⟩ :=
  ⟨identity_cached.2.1 ⟨[[75]], [], 0⟩ (.str [75]) ⟨[], [idnCmd], 0⟩ (by decide),
   identity_cached.2.2.1 .getOutputVoltage ⟨.str [75]⟩ ⟨[], [], 0⟩⟩

/-- Counterexample to C8 as stated: with a response that decodes to the
float 1.0, the voltage setter returns None while the engine's result for
the very same transaction is that float, so the setter does not return the
engine's result to its caller. -/
theorem wrapper_return_cex :
    (set_output_voltage 1 ⟨[asciiBytes "1.0"], [], 0⟩).1 = .ok PyObject.none
    ∧ (_execute_command (asciiBytes "VSET1:1.0") true ⟨[asciiBytes "1.0"], [], 0⟩).1
        = .ok (.float (.finite (mkRat 1 1)))
    ∧ PyObject.none ≠ PyObject.float (.finite (mkRat 1 1)) := by decide

/-- C8 amended: every getter formats its fixed command and returns the
engine's result directly; every setter formats its fixed command from the
validated argument, invokes the engine exactly once, and discards the
engine's result, returning None on success. -/
theorem wrappers_engine :
    (∀ p, get_requested_output_voltage p = _execute_command (asciiBytes "VSET1?") true p)
    ∧ (∀ p, get_output_voltage p = _execute_command (asciiBytes "VOUT1?") true p)
    ∧ (∀ p, get_output_current p = _execute_command (asciiBytes "IOUT1?") true p)
    ∧ (∀ p, get_requested_output_current p
        = _execute_command (asciiBytes "ISET1?") true p)
    ∧ (∀ (v : ℚ) p, 0 ≤ v → v ≤ 30 →
        (set_output_voltage v p).2.writes
            = p.writes ++ [asciiBytes "VSET1:" ++ pyFormatFloat v]
          ∧ (set_output_voltage v p).1
            = (_execute_command (asciiBytes "VSET1:" ++ pyFormatFloat v) true p).1.map
                fun _ => PyObject.none)
    ∧ (∀ b p,
        (enable_output b p).2.writes
            = p.writes ++ [if b then asciiBytes "OUT1" else asciiBytes "OUT0"]
          ∧ (enable_output b p).1
            = (_execute_command
                (if b then asciiBytes "OUT1" else asciiBytes "OUT0") true p).1.map
                fun _ => PyObject.none) := by
  refine ⟨fun p => rfl, fun p => rfl, fun p => rfl, fun p => rfl, ?_, ?_⟩
  · intro v p h0 h30
    unfold set_output_voltage
    rw [if_neg (not_lt.2 h0), if_neg (not_lt.2 h30)]
    constructor
    · show (_execute_command (asciiBytes "VSET1:" ++ pyFormatFloat v) true p).2.writes = _
      rw [execute_command_port]
      rfl
    · rfl
  · intro b p
    constructor
    · show (_execute_command
          (if b then asciiBytes "OUT1" else asciiBytes "OUT0") true p).2.writes = _
      rw [execute_command_port]
      rfl
    · rfl

/-- Witness for the wrapper theorem: setting one volt writes the formatted
command, and enabling the output writes OUT1. -/
theorem wrappers_engine_witness :
    (set_output_voltage 1 ⟨[], [], 0⟩).2.writes = [asciiBytes "VSET1:1.0"]
    ∧ (enable_output true ⟨[], [], 0⟩).2.writes = [asciiBytes "OUT1"] := by
  constructor
  · have h := (wrappers_engine.2.2.2.2.1 1 ⟨[], [], 0⟩ (by decide) (by decide)).1
    rw [h]; decide
  · have h := (wrappers_engine.2.2.2.2.2 true ⟨[], [], 0⟩).1
    rw [h]; decide

/-- Counterexample to C9 as stated: when the identification response is the
invalid byte 0xFF, the constructor raises during the identity fetch, the
with statement never runs an exit, and the transport is left open, its
close count still zero. -/
theorem with_power_supply_leak_cex :
    withPowerSupply ⟨[[255]], [], 0⟩ (fun _ q => (.ok PyObject.none, q))
      = (.error .unicodeDecodeError, ⟨[], [idnCmd], 0⟩)
    ∧ (withPowerSupply ⟨[[255]], [], 0⟩
        (fun _ q => (.ok PyObject.none, q))).2.closeCount = 0 := by decide

/-- C9 amended: when construction succeeds, the context exit closes the
transport exactly once after the body runs, whether the body's result is a
success or an error; when construction raises during the identity fetch,
the error propagates and the transport is never closed. -/
theorem with_power_supply_close :
    (∀ p psu p2 body, powerSupplyInit p = (.ok psu, p2) →
      withPowerSupply p body = ((body psu p2).1, closePort (body psu p2).2))
    ∧ (∀ p e p2 body, powerSupplyInit p = (.error e, p2) →
        withPowerSupply p body = (.error e, p2))
    ∧ (∀ q, (closePort q).closeCount = q.closeCount + 1) := by
  refine ⟨?_, ?_, fun q => rfl⟩
  · intro p psu p2 body h
    simp [withPowerSupply, h]
  · intro p e p2 body h
    simp [withPowerSupply, h]

/-- Witness for the close theorem: a successful construction followed by a
trivial body closes the port exactly once. -/
theorem with_power_supply_close_witness :
    withPowerSupply ⟨[[75]], [], 0⟩ (fun _ q => (.ok PyObject.none, q))
      = (.ok PyObject.none, ⟨[], [idnCmd], 1⟩) := by
  have h := with_power_supply_close.1 ⟨[[75]], [], 0⟩ ⟨.str [75]⟩ ⟨[], [idnCmd], 0⟩
    (fun _ q => (.ok PyObject.none, q)) (by decide)
  rw [h]; decide
